import Mathlib

/-!
Verification of the BMW CarData Home Assistant integration
(`custom_components/cardata`), shallowly embedded in Lean 4.

Two components carry the logic under study:

* `device_tracker.py` — the per-vehicle coordinate reconciler
  (`CardataDeviceTracker._handle_update`, `_apply_new_coordinates`,
  `_fetch_coordinate`, and the restoration step in `async_added_to_hass`).
* `descriptor_icons.py` — the static icon lookup (`icon_for_descriptor`
  over the `_EXACT_DESCRIPTOR_ICONS` table and ordered substring rules).

Python floats (coordinate values and monotonic timestamps) are modelled
as rationals `ℚ`: every comparison and the midpoint `(a + b) / 2` used by
the code are exact arithmetic here.  Publishing a fix
(`_apply_new_coordinates`, which also calls `schedule_update_ha_state`)
is modelled as returning `some (lat, lon)` alongside the new state.
-/

/-- The two location channels.  In the source these are the two fixed
descriptor strings of `LOCATION_DESCRIPTORS`; `_handle_update` dispatches
on whether `"latitude"` or `"longitude"` occurs in the descriptor. -/
inductive Channel where
  | latitude
  | longitude
deriving DecidableEq, Repr

/-- The raw value held by the coordinator for a descriptor, as seen by
`_fetch_coordinate`: the state may be missing / hold `None`
(`absent`), hold a value on which `float(...)` raises
(`unparseable`), or hold a float-convertible value (`num`). -/
inductive RawValue where
  | absent
  | unparseable
  | num (q : ℚ)
deriving DecidableEq, Repr

/-- Mutable state of one `CardataDeviceTracker`: the per-axis last
samples and their monotonic arrival times (`_last_lat`, `_last_lon`,
`_last_lat_time`, `_last_lon_time`) and the reference fix
(`_restored_lat`, `_restored_lon`). -/
structure TrackerState where
  last_lat : Option ℚ
  last_lon : Option ℚ
  last_lat_time : ℚ
  last_lon_time : ℚ
  restored_lat : Option ℚ
  restored_lon : Option ℚ
deriving DecidableEq, Repr

/-- `__init__`: both samples absent, both times `0`; the reference fix is
whatever restoration seeded (absent on a fresh tracker). -/
def initialState (rlat rlon : Option ℚ) : TrackerState :=
  { last_lat := none
    last_lon := none
    last_lat_time := 0
    last_lon_time := 0
    restored_lat := rlat
    restored_lon := rlon }

/-- `self._short_delay = 3` — seconds for the real-time update window. -/
def short_delay : ℚ := 3

/-- `self._max_delay = 180` — seconds for delayed acceptance. -/
def max_delay : ℚ := 180

/-- Python's built-in `abs` on floats, used for
`time_diff = abs(lat_time - lon_time)`. -/
def pyAbs (x : ℚ) : ℚ :=
  if x < 0 then -x else x

/-- `_fetch_coordinate`: returns the float value, or `None` when the
state is missing, its value is `None`, or `float(...)` raises
`ValueError`/`TypeError`. -/
def fetchCoordinate : RawValue → Option ℚ
  | RawValue.absent => none
  | RawValue.unparseable => none
  | RawValue.num q => some q

/-- `_apply_new_coordinates`: overwrite the reference fix with the pair
being published; the returned `some (lat, lon)` stands for the
`schedule_update_ha_state` publish. -/
def applyNewCoordinates (s : TrackerState) (lat lon : ℚ) :
    TrackerState × Option (ℚ × ℚ) :=
  ({ s with restored_lat := some lat, restored_lon := some lon }, some (lat, lon))

/-- The decision chain of `_handle_update` after both samples exist
(source lines 169–208): real-time pair, delayed valid pair, XOR
interpolation, or ignore.  `lat`/`lon` are the current samples. -/
def reconcile (s : TrackerState) (lat lon : ℚ) :
    TrackerState × Option (ℚ × ℚ) :=
  let time_diff := pyAbs (s.last_lat_time - s.last_lon_time)
  if time_diff ≤ short_delay then
    applyNewCoordinates s lat lon
  else
    match s.restored_lat, s.restored_lon with
    | some rlat, some rlon =>
      if decide (time_diff ≤ max_delay) && (lat != rlat) && (lon != rlon) then
        applyNewCoordinates s lat lon
      else if (lat != rlat) ^^ (lon != rlon) then
        if s.last_lat_time > s.last_lon_time then
          applyNewCoordinates s lat ((lon + rlon) / 2)
        else
          applyNewCoordinates s ((lat + rlat) / 2) lon
      else
        (s, none)
    | _, _ => (s, none)

/-- The "skip until both exist" guard of `_handle_update` (lines 162–167):
with both samples present, run the decision chain; otherwise return. -/
def afterUpdate (s : TrackerState) : TrackerState × Option (ℚ × ℚ) :=
  match s.last_lat, s.last_lon with
  | some lat, some lon => reconcile s lat lon
  | _, _ => (s, none)

/-- `_handle_update` for an event on `ch` whose fetched value is `v`,
arriving at monotonic time `now`: store the sample (when `v` parsed) and
reconcile; when nothing was updated, return unchanged with no publish. -/
def handleUpdate (s : TrackerState) (ch : Channel) (v : Option ℚ) (now : ℚ) :
    TrackerState × Option (ℚ × ℚ) :=
  match ch, v with
  | Channel.latitude, some x =>
      afterUpdate { s with last_lat := some x, last_lat_time := now }
  | Channel.longitude, some x =>
      afterUpdate { s with last_lon := some x, last_lon_time := now }
  | _, none => (s, none)

/-- One inbound update event for this tracker: the channel, the raw
coordinator value, and the `time.monotonic()` arrival time. -/
structure Event where
  ch : Channel
  val : RawValue
  t : ℚ
deriving DecidableEq, Repr

/-- One full `_handle_update` call: fetch the coordinate, then update and
reconcile. -/
def observe (s : TrackerState) (e : Event) : TrackerState × Option (ℚ × ℚ) :=
  handleUpdate s e.ch (fetchCoordinate e.val) e.t

/-- Run a sequence of events, collecting the published fixes in order. -/
def runEvents (s : TrackerState) : List Event → TrackerState × List (ℚ × ℚ)
  | [] => (s, [])
  | e :: es =>
    let step := observe s e
    let rest := runEvents step.1 es
    (rest.1, match step.2 with
             | some p => p :: rest.2
             | none => rest.2)

/-- The restoration step of `async_added_to_hass` (lines 108–122): the
persisted state may be absent; otherwise its `latitude` / `longitude`
attributes are each absent, unparseable, or a number.  Mirrors the
Python control flow exactly: both conversions sit in one `try` block and
`self._restored_lat = float(lat)` is assigned *before*
`float(lon)` is attempted, so a failure on the longitude leaves the
latitude already set. -/
def restoreReference : Option (RawValue × RawValue) → Option ℚ × Option ℚ
  | none => (none, none)
  | some (lat, lon) =>
    match lat, lon with
    | RawValue.absent, _ => (none, none)
    | _, RawValue.absent => (none, none)
    | RawValue.unparseable, _ => (none, none)
    | RawValue.num ql, RawValue.unparseable => (some ql, none)
    | RawValue.num ql, RawValue.num qn => (some ql, some qn)

/-! ### Structural lemmas about the reconciler -/

theorem applyNewCoordinates_fst (s : TrackerState) (lat lon : ℚ) :
    (applyNewCoordinates s lat lon).1
      = { s with restored_lat := some lat, restored_lon := some lon } := rfl

theorem applyNewCoordinates_snd (s : TrackerState) (lat lon : ℚ) :
    (applyNewCoordinates s lat lon).2 = some (lat, lon) := rfl

/-- Every branch of the decision chain either ignores the event or runs
`_apply_new_coordinates` on some pair. -/
theorem reconcile_cases (s : TrackerState) (lat lon : ℚ) :
    reconcile s lat lon = (s, none) ∨
    ∃ a b, reconcile s lat lon = applyNewCoordinates s a b := by
  unfold reconcile
  dsimp only
  split
  · exact Or.inr ⟨lat, lon, rfl⟩
  · split
    · split
      · exact Or.inr ⟨lat, lon, rfl⟩
      · split
        · split
          · exact Or.inr ⟨_, _, rfl⟩
          · exact Or.inr ⟨_, _, rfl⟩
        · exact Or.inl rfl
    · exact Or.inl rfl

/-- `_apply_new_coordinates` touches only the reference fix: the samples
and their times survive every branch of the decision chain. -/
theorem reconcile_preserves (s : TrackerState) (lat lon : ℚ) :
    (reconcile s lat lon).1.last_lat = s.last_lat ∧
    (reconcile s lat lon).1.last_lon = s.last_lon ∧
    (reconcile s lat lon).1.last_lat_time = s.last_lat_time ∧
    (reconcile s lat lon).1.last_lon_time = s.last_lon_time := by
  rcases reconcile_cases s lat lon with h | ⟨a, b, h⟩ <;>
    rw [h] <;> exact ⟨rfl, rfl, rfl, rfl⟩

theorem afterUpdate_preserves (s : TrackerState) :
    (afterUpdate s).1.last_lat = s.last_lat ∧
    (afterUpdate s).1.last_lon = s.last_lon ∧
    (afterUpdate s).1.last_lat_time = s.last_lat_time ∧
    (afterUpdate s).1.last_lon_time = s.last_lon_time := by
  unfold afterUpdate
  split
  · exact reconcile_preserves _ _ _
  · exact ⟨rfl, rfl, rfl, rfl⟩

theorem afterUpdate_some (s : TrackerState) (lat lon : ℚ)
    (hlat : s.last_lat = some lat) (hlon : s.last_lon = some lon) :
    afterUpdate s = reconcile s lat lon := by
  unfold afterUpdate
  rw [hlat, hlon]

theorem handleUpdate_lat (s : TrackerState) (x now : ℚ) :
    handleUpdate s Channel.latitude (some x) now
      = afterUpdate { s with last_lat := some x, last_lat_time := now } := rfl

theorem handleUpdate_lon (s : TrackerState) (x now : ℚ) :
    handleUpdate s Channel.longitude (some x) now
      = afterUpdate { s with last_lon := some x, last_lon_time := now } := rfl

theorem handleUpdate_none (s : TrackerState) (ch : Channel) (now : ℚ) :
    handleUpdate s ch none now = (s, none) := by
  cases ch <;> rfl

/-- Branch 1: within the short window the observed pair is accepted
verbatim, with no differs-from-reference requirement. -/
theorem reconcile_short (s : TrackerState) (lat lon : ℚ)
    (h : pyAbs (s.last_lat_time - s.last_lon_time) ≤ short_delay) :
    reconcile s lat lon = applyNewCoordinates s lat lon := by
  unfold reconcile
  rw [if_pos h]

/-- Branch 3: outside the short window, with a reference fix present and
exactly one axis differing, the older axis is interpolated; direction is
decided by strict `>` on the arrival times. -/
theorem reconcile_xor (s : TrackerState) (lat lon rlat rlon : ℚ)
    (hshort : ¬ pyAbs (s.last_lat_time - s.last_lon_time) ≤ short_delay)
    (hrlat : s.restored_lat = some rlat) (hrlon : s.restored_lon = some rlon)
    (hxor : ((lat != rlat) ^^ (lon != rlon)) = true) :
    reconcile s lat lon =
      if s.last_lat_time > s.last_lon_time then
        applyNewCoordinates s lat ((lon + rlon) / 2)
      else
        applyNewCoordinates s ((lat + rlat) / 2) lon := by
  unfold reconcile
  rw [if_neg hshort, hrlat, hrlon]
  cases hl : (lat != rlat) <;> cases hn : (lon != rlon) <;>
    simp [hl, hn] at hxor ⊢

/-- Ignored branch: outside the short window with neither axis differing
from the reference, nothing is published and the state is untouched. -/
theorem reconcile_unchanged (s : TrackerState) (lat lon rlat rlon : ℚ)
    (hshort : ¬ pyAbs (s.last_lat_time - s.last_lon_time) ≤ short_delay)
    (hrlat : s.restored_lat = some rlat) (hrlon : s.restored_lon = some rlon)
    (heqlat : (lat != rlat) = false) (heqlon : (lon != rlon) = false) :
    reconcile s lat lon = (s, none) := by
  unfold reconcile
  rw [if_neg hshort, hrlat, hrlon]
  simp [heqlat, heqlon]

theorem afterUpdate_cases (s : TrackerState) :
    afterUpdate s = (s, none) ∨
    ∃ a b, afterUpdate s = applyNewCoordinates s a b := by
  unfold afterUpdate
  split
  · exact reconcile_cases _ _ _
  · exact Or.inl rfl

/-- Publish/no-publish versus the reference fix, for one `_handle_update`
call: on no publish the reference fix is untouched, on a publish it is
overwritten with exactly the published pair. -/
theorem handleUpdate_restored (s : TrackerState) (ch : Channel) (v : Option ℚ)
    (now : ℚ) :
    ((handleUpdate s ch v now).2 = none →
      (handleUpdate s ch v now).1.restored_lat = s.restored_lat ∧
      (handleUpdate s ch v now).1.restored_lon = s.restored_lon) ∧
    (∀ p : ℚ × ℚ, (handleUpdate s ch v now).2 = some p →
      (handleUpdate s ch v now).1.restored_lat = some p.1 ∧
      (handleUpdate s ch v now).1.restored_lon = some p.2) := by
  cases ch <;> cases v <;>
    first
    | exact ⟨fun _ => ⟨rfl, rfl⟩, fun p hp => by simp [handleUpdate] at hp⟩
    | · rw [handleUpdate_lat]
        rcases afterUpdate_cases { s with last_lat := some _, last_lat_time := now }
          with h | ⟨a, b, h⟩ <;> rw [h]
        · exact ⟨fun _ => ⟨rfl, rfl⟩, fun p hp => by simp [applyNewCoordinates] at hp⟩
        · refine ⟨fun hn => by simp [applyNewCoordinates] at hn, fun p hp => ?_⟩
          have : (a, b) = p := by simpa [applyNewCoordinates] using hp
          subst this
          exact ⟨rfl, rfl⟩
    | · rw [handleUpdate_lon]
        rcases afterUpdate_cases { s with last_lon := some _, last_lon_time := now }
          with h | ⟨a, b, h⟩ <;> rw [h]
        · exact ⟨fun _ => ⟨rfl, rfl⟩, fun p hp => by simp [applyNewCoordinates] at hp⟩
        · refine ⟨fun hn => by simp [applyNewCoordinates] at hn, fun p hp => ?_⟩
          have : (a, b) = p := by simpa [applyNewCoordinates] using hp
          subst this
          exact ⟨rfl, rfl⟩

/-! ### Claim theorems: coordinate reconciler -/

/-- C3: for every observe event (with a parsed value) after which both
axes have samples and the absolute difference of their arrival times is
at most 3 seconds, a fix is published whose latitude and longitude equal
the two most recent raw observed values exactly — no interpolation and
no differs-from-reference requirement. -/
theorem c3_short_window_publishes_raw (s : TrackerState) (ch : Channel)
    (x now lat lon : ℚ)
    (hlat : (handleUpdate s ch (some x) now).1.last_lat = some lat)
    (hlon : (handleUpdate s ch (some x) now).1.last_lon = some lon)
    (hdiff : pyAbs ((handleUpdate s ch (some x) now).1.last_lat_time
              - (handleUpdate s ch (some x) now).1.last_lon_time) ≤ short_delay) :
    (handleUpdate s ch (some x) now).2 = some (lat, lon) := by
  cases ch
  case latitude =>
    rw [handleUpdate_lat] at hlat hlon hdiff ⊢
    rw [(afterUpdate_preserves _).1] at hlat
    rw [(afterUpdate_preserves _).2.1] at hlon
    rw [(afterUpdate_preserves _).2.2.1, (afterUpdate_preserves _).2.2.2] at hdiff
    rw [afterUpdate_some _ lat lon hlat hlon, reconcile_short _ _ _ hdiff]
    rfl
  case longitude =>
    rw [handleUpdate_lon] at hlat hlon hdiff ⊢
    rw [(afterUpdate_preserves _).1] at hlat
    rw [(afterUpdate_preserves _).2.1] at hlon
    rw [(afterUpdate_preserves _).2.2.1, (afterUpdate_preserves _).2.2.2] at hdiff
    rw [afterUpdate_some _ lat lon hlat hlon, reconcile_short _ _ _ hdiff]
    rfl

/-- Witness for C3: latitude 48 observed at t = 0, then longitude 11 at
t = 1; the time difference is 1 ≤ 3 and the raw pair is published. -/
theorem c3_short_window_publishes_raw_witness :
    (handleUpdate
      { initialState none none with last_lat := some 48, last_lat_time := 0 }
      Channel.longitude (some 11) 1).2 = some (48, 11) :=
  c3_short_window_publishes_raw _ Channel.longitude 11 1 48 11
    (by with_unfolding_all decide) (by with_unfolding_all decide)
    (by with_unfolding_all decide)

/-- C5: the reference fix is mutated only by the accept/publish step,
which overwrites it with exactly the published pair; any no-publish
outcome leaves it unchanged, and once set it is never cleared. -/
theorem c5_reference_monotonic (s : TrackerState) (e : Event) :
    ((observe s e).2 = none →
      (observe s e).1.restored_lat = s.restored_lat ∧
      (observe s e).1.restored_lon = s.restored_lon) ∧
    (∀ p : ℚ × ℚ, (observe s e).2 = some p →
      (observe s e).1.restored_lat = some p.1 ∧
      (observe s e).1.restored_lon = some p.2) ∧
    (s.restored_lat.isSome → (observe s e).1.restored_lat.isSome) ∧
    (s.restored_lon.isSome → (observe s e).1.restored_lon.isSome) := by
  unfold observe
  have h := handleUpdate_restored s e.ch (fetchCoordinate e.val) e.t
  refine ⟨h.1, h.2, ?_, ?_⟩ <;> intro hs
  · cases hp : (handleUpdate s e.ch (fetchCoordinate e.val) e.t).2 with
    | none => rw [(h.1 hp).1]; exact hs
    | some p => rw [(h.2 p hp).1]; rfl
  · cases hp : (handleUpdate s e.ch (fetchCoordinate e.val) e.t).2 with
    | none => rw [(h.1 hp).2]; exact hs
    | some p => rw [(h.2 p hp).2]; rfl

/-- Witness for C5: a longitude-only event on a fresh tracker publishes
nothing and leaves the (restored) reference fix exactly as seeded. -/
theorem c5_reference_monotonic_witness :
    (observe (initialState (some 48) (some 11))
        { ch := Channel.longitude, val := RawValue.num 9, t := 5 }).1.restored_lat
      = some 48 ∧
    (observe (initialState (some 48) (some 11))
        { ch := Channel.longitude, val := RawValue.num 9, t := 5 }).1.restored_lon
      = some 11 :=
  (c5_reference_monotonic (initialState (some 48) (some 11))
    { ch := Channel.longitude, val := RawValue.num 9, t := 5 }).1
    (by with_unfolding_all decide)

/-- C7: a missing or non-float-convertible coordinator value is treated
as absence of a sample: the whole tracker state (samples and timestamps
included) is left unchanged and no publish occurs.  `observe` is a total
Lean function, so every input — including one matching no decision
branch — degrades to the no-publish outcome rather than an exception. -/
theorem c7_bad_value_noop (s : TrackerState) (ch : Channel) (t : ℚ) :
    observe s { ch := ch, val := RawValue.absent, t := t } = (s, none) ∧
    observe s { ch := ch, val := RawValue.unparseable, t := t } = (s, none) :=
  ⟨handleUpdate_none s ch t, handleUpdate_none s ch t⟩

/-- A tracker state in which latitude 49 (differing from the reference
latitude 48) was sampled at t = 100 and longitude 11 (equal to the
reference longitude) at t = 90. -/
def c2State : TrackerState :=
  { last_lat := some 49
    last_lon := some 11
    last_lat_time := 100
    last_lon_time := 90
    restored_lat := some 48
    restored_lon := some 11 }

/-- Longitude re-observed as 11 (equal to the reference) at t = 101. -/
def c2Event : Event :=
  { ch := Channel.longitude, val := RawValue.num 11, t := 101 }

/-- Counterexample to C2 as stated: after this event both axes have
samples, a reference fix exists, exactly one axis (latitude) differs,
and the non-differing longitude observation is the newer one — yet the
arrival times are 1 s apart, so the short-window branch publishes the
raw pair (49, 11), not the interpolated ((49 + 48)/2, 11) the claim
demands for the older axis. -/
theorem c2_counterexample :
    (observe c2State c2Event).1.last_lat = some 49 ∧
    (observe c2State c2Event).1.last_lon = some 11 ∧
    c2State.restored_lat = some 48 ∧
    c2State.restored_lon = some 11 ∧
    (((49 : ℚ) != 48) ^^ ((11 : ℚ) != 11)) = true ∧
    ¬ (observe c2State c2Event).1.last_lat_time
        > (observe c2State c2Event).1.last_lon_time ∧
    (observe c2State c2Event).2 = some (49, 11) ∧
    (observe c2State c2Event).2 ≠ some ((49 + 48) / 2, 11) := by
  with_unfolding_all decide

/-- C2 (amended): as the claim states it, *and additionally* the two
axes' arrival times differ by more than the 3-second short window (the
counterexample shows the short-window branch otherwise publishes the raw
pair first).  Then the newer axis is published unchanged and the older
axis becomes the arithmetic mean of its observed and reference values;
"newer" is strict `>` on arrival times, with ties treated as longitude
being newer. -/
theorem c2_amended_interpolates_older (s : TrackerState) (ch : Channel)
    (x now lat lon rlat rlon : ℚ)
    (hrlat : s.restored_lat = some rlat) (hrlon : s.restored_lon = some rlon)
    (hlat : (handleUpdate s ch (some x) now).1.last_lat = some lat)
    (hlon : (handleUpdate s ch (some x) now).1.last_lon = some lon)
    (hxor : ((lat != rlat) ^^ (lon != rlon)) = true)
    (hnewer : if (handleUpdate s ch (some x) now).1.last_lat_time >
                 (handleUpdate s ch (some x) now).1.last_lon_time
              then lat = rlat else lon = rlon)
    (hshort : ¬ pyAbs ((handleUpdate s ch (some x) now).1.last_lat_time
              - (handleUpdate s ch (some x) now).1.last_lon_time) ≤ short_delay) :
    (handleUpdate s ch (some x) now).2 =
      some (if (handleUpdate s ch (some x) now).1.last_lat_time >
               (handleUpdate s ch (some x) now).1.last_lon_time
            then (lat, (lon + rlon) / 2)
            else ((lat + rlat) / 2, lon)) := by
  clear hnewer
  cases ch
  case latitude =>
    rw [handleUpdate_lat] at hlat hlon hshort ⊢
    rw [(afterUpdate_preserves _).1] at hlat
    rw [(afterUpdate_preserves _).2.1] at hlon
    rw [(afterUpdate_preserves _).2.2.1, (afterUpdate_preserves _).2.2.2] at hshort ⊢
    rw [afterUpdate_some _ lat lon hlat hlon,
      reconcile_xor _ lat lon rlat rlon hshort hrlat hrlon hxor]
    split <;> rfl
  case longitude =>
    rw [handleUpdate_lon] at hlat hlon hshort ⊢
    rw [(afterUpdate_preserves _).1] at hlat
    rw [(afterUpdate_preserves _).2.1] at hlon
    rw [(afterUpdate_preserves _).2.2.1, (afterUpdate_preserves _).2.2.2] at hshort ⊢
    rw [afterUpdate_some _ lat lon hlat hlon,
      reconcile_xor _ lat lon rlat rlon hshort hrlat hrlon hxor]
    split <;> rfl

/-- A state for the C2 witness: latitude 49 (differs from reference 48)
sampled at t = 100, stale longitude sample, reference (48, 11). -/
def c2WitnessState : TrackerState :=
  { last_lat := some 49
    last_lon := some 7
    last_lat_time := 100
    last_lon_time := 0
    restored_lat := some 48
    restored_lon := some 11 }

/-- Witness for the amended C2: longitude 11 (equal to the reference)
arrives at t = 110, 10 s after the latitude — outside the short window —
so the newer longitude is published unchanged and the older latitude is
interpolated to (49 + 48)/2. -/
theorem c2_amended_interpolates_older_witness :
    (handleUpdate c2WitnessState Channel.longitude (some 11) 110).2
      = some ((49 + 48) / 2, 11) := by
  have h := c2_amended_interpolates_older c2WitnessState Channel.longitude
    11 110 49 11 48 11
    (by with_unfolding_all decide) (by with_unfolding_all decide)
    (by with_unfolding_all decide) (by with_unfolding_all decide)
    (by with_unfolding_all decide) (by with_unfolding_all decide)
    (by with_unfolding_all decide)
  rw [h]
  with_unfolding_all decide

/-- C10: the interpolation (XOR) branch is subject to no time window:
with both samples present, a reference fix, and exactly one differing
axis, a fix is published even when the arrival-time difference exceeds
the 180-second `max_delay`. -/
theorem c10_xor_ignores_max_window (s : TrackerState) (ch : Channel)
    (x now lat lon rlat rlon : ℚ)
    (hrlat : s.restored_lat = some rlat) (hrlon : s.restored_lon = some rlon)
    (hlat : (handleUpdate s ch (some x) now).1.last_lat = some lat)
    (hlon : (handleUpdate s ch (some x) now).1.last_lon = some lon)
    (hxor : ((lat != rlat) ^^ (lon != rlon)) = true)
    (hfar : max_delay < pyAbs ((handleUpdate s ch (some x) now).1.last_lat_time
              - (handleUpdate s ch (some x) now).1.last_lon_time)) :
    ∃ p, (handleUpdate s ch (some x) now).2 = some p := by
  have hshort : ¬ pyAbs ((handleUpdate s ch (some x) now).1.last_lat_time
      - (handleUpdate s ch (some x) now).1.last_lon_time) ≤ short_delay := by
    intro hle
    exact absurd hfar (not_lt.mpr (hle.trans (by norm_num [short_delay, max_delay])))
  cases ch
  case latitude =>
    rw [handleUpdate_lat] at hlat hlon hshort ⊢
    rw [(afterUpdate_preserves _).1] at hlat
    rw [(afterUpdate_preserves _).2.1] at hlon
    rw [(afterUpdate_preserves _).2.2.1, (afterUpdate_preserves _).2.2.2] at hshort
    rw [afterUpdate_some _ lat lon hlat hlon,
      reconcile_xor _ lat lon rlat rlon hshort hrlat hrlon hxor]
    split
    · exact ⟨_, rfl⟩
    · exact ⟨_, rfl⟩
  case longitude =>
    rw [handleUpdate_lon] at hlat hlon hshort ⊢
    rw [(afterUpdate_preserves _).1] at hlat
    rw [(afterUpdate_preserves _).2.1] at hlon
    rw [(afterUpdate_preserves _).2.2.1, (afterUpdate_preserves _).2.2.2] at hshort
    rw [afterUpdate_some _ lat lon hlat hlon,
      reconcile_xor _ lat lon rlat rlon hshort hrlat hrlon hxor]
    split
    · exact ⟨_, rfl⟩
    · exact ⟨_, rfl⟩

/-- A state for the C10 witness: latitude 49 sampled at t = 1000,
longitude stale since t = 0, reference (48, 11). -/
def c10State : TrackerState :=
  { last_lat := some 49
    last_lon := some 7
    last_lat_time := 1000
    last_lon_time := 0
    restored_lat := some 48
    restored_lon := some 11 }

/-- Witness for C10: longitude 11 arrives at t = 10, 990 s after the
latitude sample — far beyond the 180 s window — and a fix is still
published. -/
theorem c10_xor_ignores_max_window_witness :
    ∃ p, (handleUpdate c10State Channel.longitude (some 11) 10).2 = some p :=
  c10_xor_ignores_max_window c10State Channel.longitude 11 10 49 11 48 11
    (by with_unfolding_all decide) (by with_unfolding_all decide)
    (by with_unfolding_all decide) (by with_unfolding_all decide)
    (by with_unfolding_all decide) (by with_unfolding_all decide)

theorem afterUpdate_no_lat (s : TrackerState) (hlat : s.last_lat = none) :
    afterUpdate s = (s, none) := by
  unfold afterUpdate
  rw [hlat]

theorem afterUpdate_no_lon (s : TrackerState) (hlon : s.last_lon = none) :
    afterUpdate s = (s, none) := by
  unfold afterUpdate
  rw [hlon]
  rcases hsl : s.last_lat with _ | lat <;> rfl

/-- Re-observing the reference latitude value outside the short window
only refreshes the latitude timestamp: nothing is published. -/
theorem observe_quiet_lat (s : TrackerState) (rl rn : ℚ) (e : Event)
    (hch : e.ch = Channel.latitude) (hval : fetchCoordinate e.val = some rl)
    (hlon : s.last_lon = some rn)
    (hrlat : s.restored_lat = some rl) (hrlon : s.restored_lon = some rn)
    (hfar : ¬ pyAbs (e.t - s.last_lon_time) ≤ short_delay) :
    observe s e = ({ s with last_lat := some rl, last_lat_time := e.t }, none) := by
  unfold observe
  rw [hch, hval, handleUpdate_lat]
  rw [afterUpdate_some ({ s with last_lat := some rl, last_lat_time := e.t })
    rl rn rfl hlon]
  exact reconcile_unchanged _ rl rn rl rn hfar hrlat hrlon
    (by simp) (by simp)

/-- Re-observing the reference longitude value outside the short window
only refreshes the longitude timestamp: nothing is published. -/
theorem observe_quiet_lon (s : TrackerState) (rl rn : ℚ) (e : Event)
    (hch : e.ch = Channel.longitude) (hval : fetchCoordinate e.val = some rn)
    (hlat : s.last_lat = some rl)
    (hrlat : s.restored_lat = some rl) (hrlon : s.restored_lon = some rn)
    (hfar : ¬ pyAbs (s.last_lat_time - e.t) ≤ short_delay) :
    observe s e = ({ s with last_lon := some rn, last_lon_time := e.t }, none) := by
  unfold observe
  rw [hch, hval, handleUpdate_lon]
  rw [afterUpdate_some ({ s with last_lon := some rn, last_lon_time := e.t })
    rl rn hlat rfl]
  exact reconcile_unchanged _ rl rn rl rn hfar hrlat hrlon
    (by simp) (by simp)

/-- A run of re-observations of the reference pair `(rl, rn)` in which
each event parses to the reference value of its axis and arrives more
than the short window away from the other axis's current sample time. -/
def reobserveQuiet (rl rn : ℚ) : TrackerState → List Event → Bool
  | _, [] => true
  | s, e :: es =>
    (match e.ch with
     | Channel.latitude =>
       decide (fetchCoordinate e.val = some rl)
         && !(decide (pyAbs (e.t - s.last_lon_time) ≤ short_delay))
     | Channel.longitude =>
       decide (fetchCoordinate e.val = some rn)
         && !(decide (pyAbs (s.last_lat_time - e.t) ≤ short_delay)))
    && reobserveQuiet rl rn (observe s e).1 es

/-- The tracker state after a fresh tracker accepts the real-time pair
(48, 11) (latitude at t = 0, longitude at t = 1): the reference fix
equals the pair of samples just published. -/
def c1Accepted : TrackerState :=
  { last_lat := some 48
    last_lon := some 11
    last_lat_time := 0
    last_lon_time := 1
    restored_lat := some 48
    restored_lon := some 11 }

/-- Counterexample to C1 as stated: starting from a fresh tracker, the
pair (48, 11) is accepted and published, reaching `c1Accepted` where the
reference fix equals the last published pair.  Re-observing the
*identical* latitude value 48 at t = 2 — an arrival-time pattern with
the axes 1 s apart — hits the short-window branch, which has no
differs-from-reference requirement, and publishes again.  So "no further
publish for every arrival-time pattern" is false. -/
theorem c1_counterexample :
    (runEvents (initialState none none)
      [ { ch := Channel.latitude, val := RawValue.num 48, t := 0 },
        { ch := Channel.longitude, val := RawValue.num 11, t := 1 } ]).1
      = c1Accepted ∧
    (runEvents (initialState none none)
      [ { ch := Channel.latitude, val := RawValue.num 48, t := 0 },
        { ch := Channel.longitude, val := RawValue.num 11, t := 1 } ]).2
      = [(48, 11)] ∧
    (observe c1Accepted { ch := Channel.latitude, val := RawValue.num 48, t := 2 }).2
      = some (48, 11) := by
  with_unfolding_all decide

/-- C1 (amended): after a fix has been accepted verbatim (the reference
fix equals the pair of current samples), re-observing identical values
on both axes produces no further publish and leaves the reference fix
unchanged — *for every arrival-time pattern in which each repeated
observation lands more than the 3-second short window away from the
other axis's current sample time* (the counterexample shows patterns
within the short window re-publish the identical pair). -/
theorem c1_amended_quiet (rl rn : ℚ) (s : TrackerState) (es : List Event)
    (hlat : s.last_lat = some rl) (hlon : s.last_lon = some rn)
    (hrlat : s.restored_lat = some rl) (hrlon : s.restored_lon = some rn)
    (hq : reobserveQuiet rl rn s es = true) :
    (runEvents s es).2 = [] ∧
    (runEvents s es).1.restored_lat = some rl ∧
    (runEvents s es).1.restored_lon = some rn := by
  induction es generalizing s with
  | nil => exact ⟨rfl, hrlat, hrlon⟩
  | cons e es ih =>
    rw [reobserveQuiet, Bool.and_eq_true] at hq
    obtain ⟨hcond, hrest⟩ := hq
    cases hch : e.ch
    case latitude =>
      rw [hch] at hcond
      simp only [Bool.and_eq_true, decide_eq_true_eq, Bool.not_eq_true',
        decide_eq_false_iff_not] at hcond
      obtain ⟨hval, hfar⟩ := hcond
      have hobs := observe_quiet_lat s rl rn e hch hval hlon hrlat hrlon hfar
      rw [hobs] at hrest
      rw [runEvents]
      simp only [hobs]
      exact ih _ rfl hlon hrlat hrlon hrest
    case longitude =>
      rw [hch] at hcond
      simp only [Bool.and_eq_true, decide_eq_true_eq, Bool.not_eq_true',
        decide_eq_false_iff_not] at hcond
      obtain ⟨hval, hfar⟩ := hcond
      have hobs := observe_quiet_lon s rl rn e hch hval hlat hrlat hrlon hfar
      rw [hobs] at hrest
      rw [runEvents]
      simp only [hobs]
      exact ih _ hlat rfl hrlat hrlon hrest

/-- Witness for the amended C1: from `c1Accepted`, re-observing 48 on
latitude at t = 10 and 11 on longitude at t = 20 (each more than 3 s
from the other axis's sample time) is a quiet run: no publish, reference
fix unchanged. -/
theorem c1_amended_quiet_witness :
    reobserveQuiet 48 11 c1Accepted
      [ { ch := Channel.latitude, val := RawValue.num 48, t := 10 },
        { ch := Channel.longitude, val := RawValue.num 11, t := 20 } ] = true ∧
    (runEvents c1Accepted
      [ { ch := Channel.latitude, val := RawValue.num 48, t := 10 },
        { ch := Channel.longitude, val := RawValue.num 11, t := 20 } ]).2 = [] :=
  ⟨by with_unfolding_all decide,
   (c1_amended_quiet 48 11 c1Accepted
      [ { ch := Channel.latitude, val := RawValue.num 48, t := 10 },
        { ch := Channel.longitude, val := RawValue.num 11, t := 20 } ]
      rfl rfl rfl rfl (by with_unfolding_all decide)).1⟩

/-- One event that cannot complete the pair: it either targets the
latitude axis or fails to parse, so a missing longitude sample stays
missing and nothing is published. -/
theorem observe_missing_lon (s : TrackerState) (e : Event)
    (hlon : s.last_lon = none)
    (he : e.ch = Channel.latitude ∨ fetchCoordinate e.val = none) :
    (observe s e).2 = none ∧ (observe s e).1.last_lon = none := by
  unfold observe
  rcases he with hch | hval
  · rw [hch]
    cases hv : fetchCoordinate e.val with
    | none => rw [handleUpdate_none]; exact ⟨rfl, hlon⟩
    | some x =>
      rw [handleUpdate_lat,
        afterUpdate_no_lon { s with last_lat := some x, last_lat_time := e.t } hlon]
      exact ⟨rfl, hlon⟩
  · rw [hval, handleUpdate_none]
    exact ⟨rfl, hlon⟩

/-- Mirror image of `observe_missing_lon` for a missing latitude. -/
theorem observe_missing_lat (s : TrackerState) (e : Event)
    (hlat : s.last_lat = none)
    (he : e.ch = Channel.longitude ∨ fetchCoordinate e.val = none) :
    (observe s e).2 = none ∧ (observe s e).1.last_lat = none := by
  unfold observe
  rcases he with hch | hval
  · rw [hch]
    cases hv : fetchCoordinate e.val with
    | none => rw [handleUpdate_none]; exact ⟨rfl, hlat⟩
    | some x =>
      rw [handleUpdate_lon,
        afterUpdate_no_lat { s with last_lon := some x, last_lon_time := e.t } hlat]
      exact ⟨rfl, hlat⟩
  · rw [hval, handleUpdate_none]
    exact ⟨rfl, hlat⟩

/-- C4: for every sequence of observe events in which only one axis ever
receives a sample (every event targets that axis or fails to parse) and
the other axis starts without a sample, no fix is ever published —
regardless of length and regardless of any restored reference fix. -/
theorem c4_single_axis_never_publishes (s : TrackerState) (es : List Event)
    (h : (s.last_lon = none ∧
            ∀ e ∈ es, e.ch = Channel.latitude ∨ fetchCoordinate e.val = none)
       ∨ (s.last_lat = none ∧
            ∀ e ∈ es, e.ch = Channel.longitude ∨ fetchCoordinate e.val = none)) :
    (runEvents s es).2 = [] := by
  induction es generalizing s with
  | nil => rfl
  | cons e es ih =>
    rw [runEvents]
    rcases h with ⟨hnone, hall⟩ | ⟨hnone, hall⟩
    · have hst := observe_missing_lon s e hnone (hall e (List.mem_cons_self e es))
      rw [hst.1]
      exact ih _ (Or.inl ⟨hst.2, fun e' he' => hall e' (List.mem_cons_of_mem e he')⟩)
    · have hst := observe_missing_lat s e hnone (hall e (List.mem_cons_self e es))
      rw [hst.1]
      exact ih _ (Or.inr ⟨hst.2, fun e' he' => hall e' (List.mem_cons_of_mem e he')⟩)

/-- Witness for C4: two latitude-only observations on a fresh tracker
that nonetheless carries a restored reference fix publish nothing. -/
theorem c4_single_axis_never_publishes_witness :
    (runEvents (initialState (some 48) (some 11))
      [ { ch := Channel.latitude, val := RawValue.num 49, t := 0 },
        { ch := Channel.latitude, val := RawValue.num 50, t := 100 } ]).2 = [] :=
  c4_single_axis_never_publishes _ _
    (Or.inl ⟨rfl, by with_unfolding_all decide⟩)

/-! ### The icon lookup (`descriptor_icons.py`) -/

/-- `needle.isPrefixOf hay` on character lists. -/
def charsPrefix : List Char → List Char → Bool
  | [], _ => true
  | _ :: _, [] => false
  | a :: as, b :: bs => a == b && charsPrefix as bs

/-- Substring occurrence on character lists. -/
def charsContains (needle : List Char) : List Char → Bool
  | [] => needle.isEmpty
  | c :: t => charsPrefix needle (c :: t) || charsContains needle t

/-- Python's `needle in hay` substring test on strings. -/
def strContains (hay needle : String) : Bool :=
  charsContains needle.data hay.data

/-- Python's `hay.endswith(needle)`. -/
def strEndsWith (hay needle : String) : Bool :=
  charsPrefix needle.data.reverse hay.data.reverse

/-- Python's `str.lower()`; descriptors are ASCII. -/
def strLower (s : String) : String :=
  String.mk (s.data.map Char.toLower)

/-- The `_EXACT_DESCRIPTOR_ICONS` dict: explicit overrides consulted
before any substring rule. -/
def EXACT_DESCRIPTOR_ICONS : List (String × String) :=
  [ ("vehicle.drivetrain.electricEngine.charging.status", "mdi:ev-station"),
    ("vehicle.drivetrain.electricEngine.charging.level", "mdi:battery-charging-high"),
    ("vehicle.powertrain.electric.battery.stateOfCharge.target", "mdi:battery-charging-high"),
    ("vehicle.drivetrain.electricEngine.remainingElectricRange", "mdi:map-marker-distance"),
    ("vehicle.drivetrain.totalRemainingRange", "mdi:map-marker-distance"),
    ("vehicle.drivetrain.fuelSystem.remainingFuel", "mdi:gas-station"),
    ("vehicle.drivetrain.fuelSystem.level", "mdi:gas-station"),
    ("vehicle.vehicle.travelledDistance", "mdi:speedometer"),
    ("vehicle.vehicle.avgSpeed", "mdi:speedometer"),
    ("vehicle.status.conditionBasedServices", "mdi:wrench"),
    ("vehicle.status.checkControlMessages", "mdi:car-tire-alert"),
    ("vehicle.vehicle.preConditioning.activity", "mdi:fan"),
    ("vehicle.vehicle.preConditioning.remainingTime", "mdi:clock-outline"),
    ("vehicle.vehicle.preConditioning.error", "mdi:alert-circle-outline"),
    ("vehicle.vehicle.preConditioning.isRemoteEngineRunning", "mdi:engine"),
    ("vehicle.vehicle.preConditioning.isRemoteEngineStartAllowed", "mdi:engine"),
    ("vehicle.vehicle.avgAuxPower", "mdi:flash"),
    ("vehicle.channel.teleservice.status", "mdi:phone"),
    ("vehicle.body.chargingPort.status", "mdi:ev-plug-type2"),
    ("vehicle.body.chargingPort.lockedStatus", "mdi:lock"),
    ("vehicle.body.trunk.isOpen", "mdi:car-back"),
    ("vehicle.body.trunk.isLocked", "mdi:lock"),
    ("vehicle.cabin.hvac.preconditioning.status.remainingRunningTime", "mdi:clock-outline") ]

/-- The ordered substring fallback rules of `icon_for_descriptor`,
applied to the lowercased descriptor; first match wins. -/
def fallbackIcon (lowered : String) : Option String :=
  if strContains lowered "remaining" && strContains lowered "range" then
    some "mdi:map-marker-distance"
  else if strContains lowered "fuel" then some "mdi:gas-station"
  else if strContains lowered "soc" || strContains lowered "stateofcharge"
      || strEndsWith lowered ".hvsoc" then
    if strContains lowered "charging" then some "mdi:battery-charging-high"
    else some "mdi:car-battery"
  else if strContains lowered "battery" && strContains lowered "charge" then
    some "mdi:battery-charging-high"
  else if strContains lowered "battery" then some "mdi:car-battery"
  else if strContains lowered "charging" then
    if strContains lowered "amp" then some "mdi:current-ac"
    else if strContains lowered "volt" then some "mdi:current-ac"
    else if strContains lowered "time" then some "mdi:clock-outline"
    else if strContains lowered "connector" || strContains lowered "plug" then
      some "mdi:ev-plug-type2"
    else some "mdi:ev-station"
  else if strContains lowered "power" then some "mdi:flash"
  else if strContains lowered "voltage" then some "mdi:flash"
  else if strContains lowered "amp" then some "mdi:current-ac"
  else if strContains lowered "pressure" then some "mdi:car-tire-alert"
  else if strContains lowered "temperature" || strEndsWith lowered ".ect" then
    some "mdi:thermometer"
  else if strContains lowered "tire" then some "mdi:car-tire-alert"
  else if strContains lowered "hvac" || strContains lowered "climate"
      || strContains lowered "preconditioning" then some "mdi:fan"
  else if strContains lowered "seat" then
    if strContains lowered "heating" then some "mdi:car-seat-heater"
    else if strContains lowered "cooling" then some "mdi:air-conditioner"
    else some "mdi:car-seat"
  else if strContains lowered "door" || strContains lowered "window" then
    some "mdi:car-door"
  else if strContains lowered "sunroof" then some "mdi:weather-sunny"
  else if strContains lowered "trunk" then some "mdi:car-back"
  else if strContains lowered "hood" then some "mdi:car"
  else if strContains lowered "lock" then some "mdi:lock"
  else if strContains lowered "engine" || strContains lowered "ignition" then
    some "mdi:engine"
  else if strContains lowered "navigation" || strContains lowered "location"
      || strContains lowered "gps" then some "mdi:map-marker"
  else if strContains lowered "service" then some "mdi:wrench"
  else if strContains lowered "diagnostic" || strContains lowered "fault" then
    some "mdi:alert"
  else if strContains lowered "alarm" then some "mdi:alarm-light"
  else if strContains lowered "sleep" then some "mdi:power-sleep"
  else if strContains lowered "time" || strContains lowered "timestamp" then
    some "mdi:clock-outline"
  else if strContains lowered "speed" || strContains lowered "distance"
      || strContains lowered "travelled" then some "mdi:speedometer"
  else if strContains lowered "phone" || strContains lowered "teleservice" then
    some "mdi:phone"
  else if strContains lowered "sim" then some "mdi:sim"
  else none

/-- `icon_for_descriptor`: `None` and the empty string map to `None`
(Python falsiness); otherwise the exact table is consulted first, then
the ordered substring rules on the lowercased descriptor. -/
def icon_for_descriptor : Option String → Option String
  | none => none
  | some descriptor =>
    if descriptor == "" then none
    else
      match List.lookup descriptor EXACT_DESCRIPTOR_ICONS with
      | some icon => some icon
      | none => fallbackIcon (strLower descriptor)

/-- C8: the icon lookup is a pure total Lean function with exactly the
claimed values: `None ↦ None`; the charging-status descriptor hits the
exact table; `tirePressureFront` falls through to a substring rule;
an unknown descriptor and the empty string map to `None`. -/
theorem c8_icon_lookup_values :
    icon_for_descriptor none = none ∧
    icon_for_descriptor (some "vehicle.drivetrain.electricEngine.charging.status")
      = some "mdi:ev-station" ∧
    List.lookup "vehicle.drivetrain.electricEngine.charging.status"
      EXACT_DESCRIPTOR_ICONS = some "mdi:ev-station" ∧
    icon_for_descriptor (some "vehicle.foo.tirePressureFront")
      = some "mdi:car-tire-alert" ∧
    List.lookup "vehicle.foo.tirePressureFront" EXACT_DESCRIPTOR_ICONS = none ∧
    icon_for_descriptor (some "vehicle.unknown.xyz") = none ∧
    icon_for_descriptor (some "") = none := by
  decide

/-- No key of the exact table is the empty string, so a successful
lookup implies the descriptor is non-empty. -/
theorem lookup_key_ne_empty (icon : String)
    (h : List.lookup "" EXACT_DESCRIPTOR_ICONS = some icon) : False := by
  rw [show List.lookup "" EXACT_DESCRIPTOR_ICONS = (none : Option String)
    from by decide] at h
  cases h

/-- C9: every key of the exact-match table returns that table's value,
taking precedence over every substring fallback rule; for non-keys the
ordered lowercased-substring rules decide the result.  In particular
`vehicle.body.chargingPort.status` yields `mdi:ev-plug-type2` from the
table even though the fallback rules alone would yield `mdi:ev-station`. -/
theorem c9_exact_match_precedence :
    (∀ d icon, List.lookup d EXACT_DESCRIPTOR_ICONS = some icon →
      icon_for_descriptor (some d) = some icon) ∧
    (∀ d, d ≠ "" → List.lookup d EXACT_DESCRIPTOR_ICONS = none →
      icon_for_descriptor (some d) = fallbackIcon (strLower d)) ∧
    icon_for_descriptor (some "vehicle.body.chargingPort.status")
      = some "mdi:ev-plug-type2" ∧
    fallbackIcon (strLower "vehicle.body.chargingPort.status")
      = some "mdi:ev-station" := by
  refine ⟨?_, ?_, by decide, by decide⟩
  · intro d icon h
    have hne : ¬ d = "" := by
      intro he
      exact lookup_key_ne_empty icon (he ▸ h)
    have hbeq : ¬ ((d == "") = true) := by simpa using hne
    simp only [icon_for_descriptor]
    rw [if_neg hbeq, h]
  · intro d hne h
    have hbeq : ¬ ((d == "") = true) := by simpa using hne
    simp only [icon_for_descriptor]
    rw [if_neg hbeq, h]

/-- Witness for C9: applying the exact-match part at a concrete key and
the fallback part at a concrete non-key. -/
theorem c9_exact_match_precedence_witness :
    icon_for_descriptor (some "vehicle.drivetrain.fuelSystem.level")
      = some "mdi:gas-station" ∧
    icon_for_descriptor (some "vehicle.cabin.door.front") =
      fallbackIcon (strLower "vehicle.cabin.door.front") :=
  ⟨c9_exact_match_precedence.1 "vehicle.drivetrain.fuelSystem.level"
      "mdi:gas-station" (by decide),
   c9_exact_match_precedence.2.1 "vehicle.cabin.door.front"
      (by decide) (by decide)⟩

/-! ### Restoration of the reference fix (C6) -/

/-- C6 fails on the code: when the persisted latitude converts but the
persisted longitude raises in `float(...)`, the `try` block has already
assigned `_restored_lat`, so the tracker is left with a reference
latitude and no reference longitude — the "latitude set iff longitude
set" invariant is violated at restoration time. -/
theorem c6_restore_partial_breaks_invariant :
    restoreReference (some (RawValue.num 48, RawValue.unparseable))
      = (some 48, none) ∧
    ¬ (((restoreReference (some (RawValue.num 48, RawValue.unparseable))).1.isSome
          = true) ↔
       ((restoreReference (some (RawValue.num 48, RawValue.unparseable))).2.isSome
          = true)) := by
  constructor
  · rfl
  · decide

example :
    (observe (initialState none none)
      { ch := Channel.latitude, val := RawValue.num 48, t := 0 }).2 = none := by
  with_unfolding_all decide

example :
    (runEvents (initialState none none)
      [ { ch := Channel.latitude, val := RawValue.num 48, t := 0 },
        { ch := Channel.longitude, val := RawValue.num 11, t := 1 } ]).2
      = [(48, 11)] := by
  with_unfolding_all decide
